import Mathlib

/-!
Shallow embedding of the sandbox-3d-brain turn-orchestration worker.

The repository holds four revisions of a single Cloudflare-worker handler,
each a linear pipeline: multipart request -> speech-to-text -> text
generation -> text-to-speech -> audio response with metadata headers.

  * `fetchMain` embeds `src/index.ts` (structured-JSON Gemini contract,
    history role remapping, compliance score header).
  * `fetchV2b` embeds the second file of `src/unnamed/part_001`
    (minimum-audio-size guard, empty-transcript short-circuit,
    generation-failure fallback).
  * `fetchV3` embeds `src/unnamed/part_002` (history injection,
    empty-transcript short-circuit, generation-failure fallback).
  * `getCorsHeadersDyn` embeds the dynamic CORS helper of the first file
    of `src/unnamed/part_001`.

The three remote collaborators are modelled as oracles (one record of
functions per revision); the handler additionally returns the list of
outbound calls it made, in order, so that never-called / called-with
properties can be stated.  JavaScript semantics that the code relies on
are modelled explicitly: `x || y` falsiness on strings, property access
on parsed JSON (with the TypeError on `null`), `String(...)` coercion
used by `Headers.set`, and `Number.prototype.toString`.
JSON numbers are modelled as integers (the only numeric field any
revision reads is the integer compliance score).
-/

/- A JSON value, as produced by the platform's JSON.parse.  Mutual with
explicit list/object spines so that every function on it is structural
and kernel-reducible. -/
mutual
inductive Json where
  | null
  | bool (b : Bool)
  | num (n : Int)
  | str (s : String)
  | arr (xs : JsonList)
  | obj (fs : JsonObj)
  deriving DecidableEq, Repr

inductive JsonList where
  | nil
  | cons (head : Json) (tail : JsonList)
  deriving DecidableEq, Repr

inductive JsonObj where
  | nil
  | cons (key : String) (val : Json) (tail : JsonObj)
  deriving DecidableEq, Repr
end

def JsonList.toList : JsonList → List Json
  | JsonList.nil => []
  | JsonList.cons x xs => x :: xs.toList

def JsonList.ofList : List Json → JsonList
  | [] => JsonList.nil
  | x :: xs => JsonList.cons x (JsonList.ofList xs)

/- JavaScript String(v) / v.toString() on a JSON value: strings unchanged,
numbers printed, booleans "true"/"false", null prints "null", arrays join
their elements with commas (null elements join as the empty string, as in
JS Array.prototype.toString), objects print "[object Object]". -/
mutual
def jsToString : Json → String
  | Json.null => "null"
  | Json.bool b => cond b "true" "false"
  | Json.num n => toString n
  | Json.str s => s
  | Json.obj _ => "[object Object]"
  | Json.arr xs => jsArrToString xs
termination_by structural j => j

def jsArrToString : JsonList → String
  | JsonList.nil => ""
  | JsonList.cons Json.null JsonList.nil => ""
  | JsonList.cons x JsonList.nil => jsToString x
  | JsonList.cons Json.null (JsonList.cons y ys) =>
      "," ++ jsArrToString (JsonList.cons y ys)
  | JsonList.cons x (JsonList.cons y ys) =>
      jsToString x ++ "," ++ jsArrToString (JsonList.cons y ys)
termination_by structural l => l
end

/-- Property lookup in a parsed-JSON object (JS objects from JSON.parse
have unique keys). -/
def lookupField : JsonObj → String → Option Json
  | JsonObj.nil, _ => none
  | JsonObj.cons k v rest, key => if k = key then some v else lookupField rest key

/-- JavaScript property access `j.key` on a parsed JSON value: a TypeError
(thrown message) on null, the field (or undefined = none) on objects, and
undefined on the other primitives and arrays. -/
def jsGetField : Json → String → Except String (Option Json)
  | Json.null, key =>
      Except.error ("Cannot read properties of null (reading " ++ key ++ ")")
  | Json.obj fs, key => Except.ok (lookupField fs key)
  | _, _ => Except.ok none

/-- JavaScript `x || y` where x is a string or undefined: the empty string
and undefined are falsy. -/
def jsOr (x : Option String) (y : String) : String :=
  match x with
  | none => y
  | some s => if s = "" then y else s

/-- The string Headers.set stores for a possibly-undefined JSON value
(ByteString coercion String(v)). -/
def jsStringCoerce : Option Json → String
  | none => "undefined"
  | some v => jsToString v

/-- The WhiteSpace and LineTerminator characters String.prototype.trim
removes (the ASCII ones plus NBSP, BOM and the vertical-tab/form-feed
controls). -/
def jsIsWhitespace (c : Char) : Bool :=
  c.val = 32 ∨ c.val = 9 ∨ c.val = 10 ∨ c.val = 13 ∨ c.val = 11 ∨ c.val = 12 ∨
  c.val = 160 ∨ c.val = 65279

/-- JavaScript String.prototype.trim. -/
def jsTrim (s : String) : String :=
  String.mk (((s.data.dropWhile jsIsWhitespace).reverse.dropWhile jsIsWhitespace).reverse)

def jsSplitCommaAux : List Char → List Char → List String
  | [], acc => [String.mk acc.reverse]
  | c :: rest, acc =>
      if c = ',' then String.mk acc.reverse :: jsSplitCommaAux rest []
      else jsSplitCommaAux rest (c :: acc)

/-- JavaScript String.prototype.split with separator ",": the empty
string splits to a single empty chunk. -/
def jsSplitComma (s : String) : List String :=
  jsSplitCommaAux s.data []

/-- An uploaded audio file (a multipart File part). -/
structure AudioFile where
  name : String
  size : Nat
  data : List Nat
  deriving DecidableEq, Repr

/-- A multipart form value: a file part or a plain text part. -/
inductive FormValue where
  | file (f : AudioFile)
  | str (s : String)
  deriving DecidableEq, Repr

/-- The inbound HTTP request, reduced to the parts the handlers read:
method, Origin header, and the two form fields. -/
structure Request where
  method : String
  origin : Option String
  audio : Option FormValue
  history : Option String
  deriving DecidableEq, Repr

/-- A response body: empty (preflight), plain text, a JSON value, or the
binary audio stream. -/
inductive Body where
  | empty
  | text (s : String)
  | json (j : Json)
  | audio (bytes : List Nat)
  deriving DecidableEq, Repr

/-- The outbound HTTP response. -/
structure Response where
  status : Nat
  headers : List (String × String)
  body : Body
  deriving DecidableEq, Repr

/-- Headers.set: overwrite the value when the name is present, append
otherwise. -/
def setHeader (hs : List (String × String)) (k v : String) : List (String × String) :=
  if hs.any (fun p => p.1 = k) then
    hs.map (fun p => if p.1 = k then (k, v) else p)
  else hs ++ [(k, v)]

/-- Headers.get: the first value stored under the name. -/
def getHeader (hs : List (String × String)) (k : String) : Option String :=
  match hs.find? (fun p => p.1 = k) with
  | some p => some p.2
  | none => none

/-- Worker environment bindings. -/
structure Env where
  ELEVENLABS_API_KEY : String
  GEMINI_API_KEY : String
  VOICE_ID : String
  ALLOWED_ORIGINS : Option String
  deriving DecidableEq, Repr

/-- Speech-to-text service response: HTTP ok flag, the `text` field of the
JSON body (absent = undefined), and the raw body text (read on failure). -/
structure SttResp where
  ok : Bool
  text : Option String
  bodyText : String
  deriving DecidableEq, Repr

/-- Generation service response for the plain-text revisions: HTTP ok
flag, the `candidates[0].content.parts[0].text` optional-chain result,
and the raw body text. -/
structure GenResp where
  ok : Bool
  candidateText : Option String
  bodyText : String
  deriving DecidableEq, Repr

/-- Text-to-speech service response: HTTP ok flag and the audio bytes. -/
structure TtsResp where
  ok : Bool
  audio : List Nat
  deriving DecidableEq, Repr

/-- Fixed prosody parameters sent to the synthesis service. -/
structure VoiceSettings where
  stability : Rat
  similarity_boost : Rat
  deriving DecidableEq, Repr

/-- The JSON body of a text-to-speech request.  `text` is an Option
because `src/index.ts` forwards `brainData.text`, which may be
undefined. -/
structure TtsBody where
  text : Option Json
  model_id : String
  voice_settings : VoiceSettings
  deriving DecidableEq, Repr

/-- One outbound call to a collaborator, recorded in order;
γ is the revision's generation-payload type. -/
inductive Call (γ : Type) where
  | stt (file : AudioFile)
  | gen (payload : γ)
  | tts (body : TtsBody)
  deriving DecidableEq, Repr

/-- Whether a call trace contains a generation-service call. -/
def hasGenCall {γ : Type} : List (Call γ) → Bool
  | [] => false
  | Call.gen _ :: _ => true
  | _ :: rest => hasGenCall rest

/-- The persona text shared by the part_000/part_001/part_002 revisions
(template literal, leading and trailing newline included). -/
def SYSTEM_PROMPT_V : String :=
  "\nYou are Marcus Chen, an inmate in a medium-security correctional facility.\nContext: You are sitting in the dayroom. A correctional officer (the user) is approaching you.\nCurrent State: Anxious, guarded, but willing to talk if treated with respect.\nGoal: You want to know if your commissary account has been unfrozen so you can call your sister.\nRules:\n1. Keep responses SHORT (under 2 sentences). This is a spoken conversation.\n2. Do not sound like an AI. Hesitate, use slang, be natural.\n3. If the officer is aggressive, shut down. If they are helpful, open up.\n"

/-- The static allow-all CORS headers of part_001 (second file) and
part_002. -/
def getCorsHeadersV : List (String × String) :=
  [("Access-Control-Allow-Origin", "*"),
   ("Access-Control-Allow-Methods", "GET, POST, OPTIONS"),
   ("Access-Control-Allow-Headers", "Content-Type, x-api-key"),
   ("Access-Control-Max-Age", "86400")]

/-- The 500 error response: JSON.stringify of an object with the thrown
message under "error", with the revision's CORS headers. -/
def errorResponseV (m : String) : Response :=
  { status := 500,
    headers := getCorsHeadersV,
    body := Body.json (Json.obj (JsonObj.cons "error" (Json.str m) JsonObj.nil)) }

/-- The no-speech fallback reply of the part_001 (second file) and
part_002 revisions. -/
def FALLBACK_NO_SPEECH : String := "I couldn't hear you, Officer. Say again?"

/-- The generation-failure fallback reply of the part_001 (second file)
and part_002 revisions. -/
def FALLBACK_GEN_FAIL : String := "My head hurts... (AI Error)"

/-- One part of a Gemini content entry in the plain-text revisions. -/
structure PartV where
  text : String
  deriving DecidableEq, Repr

/-- One content entry of the part_001 generation payload. -/
structure ContentV where
  parts : List PartV
  deriving DecidableEq, Repr

/-- The generation payload of the part_001 (second file) revision. -/
structure PayloadV2b where
  contents : List ContentV
  deriving DecidableEq, Repr

/-- Builds the part_001 (second file) generation payload: persona prompt
and the quoted transcript as two parts of a single content entry. -/
def payloadV2b (userText : String) : PayloadV2b :=
  { contents := [ { parts := [ { text := SYSTEM_PROMPT_V },
                               { text := "User said: \"" ++ userText ++ "\"" } ] } ] }

/-- The collaborators of the part_001 (second file) revision. -/
structure ServicesV2b where
  stt : AudioFile → SttResp
  gen : PayloadV2b → GenResp
  tts : TtsBody → TtsResp

/-- The fixed synthesis request body built from a reply text. -/
def ttsBodyOf (aiText : String) : TtsBody :=
  { text := some (Json.str aiText),
    model_id := "eleven_turbo_v2",
    voice_settings := { stability := 0.5, similarity_boost := 0.7 } }

/-- The success-response headers of the part_001 (second file) and
part_002 revisions. -/
def successHeadersV (aiText userText : String) : List (String × String) :=
  setHeader
    (setHeader
      (setHeader
        (setHeader getCorsHeadersV "Content-Type" "audio/mpeg")
        "X-Ai-Text" aiText)
      "X-User-Text" userText)
    "Access-Control-Expose-Headers" "X-Ai-Text, X-User-Text"

/-- The fetch handler of the second file of `src/unnamed/part_001`
(lines 208-303): method gate, audio presence and minimum-size guard,
speech-to-text (failure message embeds the upstream body), short-circuit
to a fixed fallback when the trimmed transcript has length at most 1,
generation with degrade-to-fallback on HTTP failure, synthesis (fatal on
failure), and success response with metadata headers.  Returns the
response together with the ordered list of outbound calls. -/
def fetchV2b (env : Env) (req : Request) (svc : ServicesV2b) :
    Response × List (Call PayloadV2b) :=
  if req.method = "OPTIONS" then
    ({ status := 200, headers := getCorsHeadersV, body := Body.empty }, [])
  else if req.method ≠ "POST" then
    ({ status := 405, headers := getCorsHeadersV, body := Body.text "Method not allowed" }, [])
  else
    match req.audio with
    | none => (errorResponseV "No audio file provided", [])
    | some (FormValue.str _) => (errorResponseV "No audio file provided", [])
    | some (FormValue.file audioFile) =>
      if audioFile.size < 100 then
        (errorResponseV "Audio file too short.", [])
      else
        let sttR := svc.stt audioFile
        if sttR.ok = false then
          (errorResponseV ("ElevenLabs STT Failed: " ++ sttR.bodyText), [Call.stt audioFile])
        else
          let userText := jsOr sttR.text ""
          let genStep : String × List (Call PayloadV2b) :=
            if (jsTrim userText).length > 1 then
              let p := payloadV2b userText
              let genR := svc.gen p
              if genR.ok = false then (FALLBACK_GEN_FAIL, [Call.gen p])
              else (jsOr genR.candidateText FALLBACK_NO_SPEECH, [Call.gen p])
            else (FALLBACK_NO_SPEECH, [])
          let aiText := genStep.1
          let ttsB := ttsBodyOf aiText
          let ttsR := svc.tts ttsB
          let calls := Call.stt audioFile :: genStep.2 ++ [Call.tts ttsB]
          if ttsR.ok = false then
            (errorResponseV "ElevenLabs TTS Failed", calls)
          else
            ({ status := 200,
               headers := successHeadersV aiText userText,
               body := Body.audio ttsR.audio }, calls)

/-- The part_002 unconditional initial value of previousContext (a JS
empty array), possibly replaced by the parsed history form field; a parse
failure is caught and leaves the empty array. -/
def parseHistoryV3 (parse : String → Except String Json) (historyRaw : Option String) : Json :=
  match historyRaw with
  | none => Json.arr JsonList.nil
  | some s =>
    match parse s with
    | Except.ok j => j
    | Except.error _ => Json.arr JsonList.nil

/-- JavaScript array-literal spread of a parsed JSON value: arrays spread
to their elements, strings to their characters, anything else throws a
TypeError. -/
def spreadJson : Json → Except String (List Json)
  | Json.arr xs => Except.ok xs.toList
  | Json.str s => Except.ok (s.data.map (fun c => Json.str (String.singleton c)))
  | _ => Except.error "previousContext is not iterable"

/-- The current-turn entry part_002 appends after the injected history
(a plain JSON object, matching the verbatim-injected history entries). -/
def currentTurnJson (userText : String) : Json :=
  Json.obj
    (JsonObj.cons "role" (Json.str "user")
      (JsonObj.cons "parts"
        (Json.arr (JsonList.cons
          (Json.obj (JsonObj.cons "text" (Json.str userText) JsonObj.nil))
          JsonList.nil))
        JsonObj.nil))

/-- The system_instruction block of the part_002 generation payload. -/
structure SysInstr where
  parts : List PartV
  deriving DecidableEq, Repr

/-- The generation payload of the part_002 revision: persona under
system_instruction, history entries injected verbatim before the current
turn under contents. -/
structure PayloadV3 where
  system_instruction : SysInstr
  contents : List Json
  deriving DecidableEq, Repr

/-- The collaborators of the part_002 revision; `parse` is the platform
JSON.parse (error = the SyntaxError message). -/
structure ServicesV3 where
  stt : AudioFile → SttResp
  gen : PayloadV3 → GenResp
  tts : TtsBody → TtsResp
  parse : String → Except String Json

/-- The fetch handler of `src/unnamed/part_002` (lines 21-133): method
gate, audio presence check, speech-to-text (terse failure message),
short-circuit to a fixed fallback when the trimmed transcript has length
at most 1, otherwise history parsing (malformed history silently
discarded) and generation with degrade-to-fallback on HTTP failure,
synthesis (fatal on failure), success response with metadata headers.
Returns the response with the ordered list of outbound calls. -/
def fetchV3 (env : Env) (req : Request) (svc : ServicesV3) :
    Response × List (Call PayloadV3) :=
  if req.method = "OPTIONS" then
    ({ status := 200, headers := getCorsHeadersV, body := Body.empty }, [])
  else if req.method ≠ "POST" then
    ({ status := 405, headers := getCorsHeadersV, body := Body.text "Method not allowed" }, [])
  else
    match req.audio with
    | none => (errorResponseV "No audio file provided", [])
    | some (FormValue.str _) => (errorResponseV "No audio file provided", [])
    | some (FormValue.file audioFile) =>
      let sttR := svc.stt audioFile
      if sttR.ok = false then
        (errorResponseV "ElevenLabs STT Failed", [Call.stt audioFile])
      else
        let userText := jsOr sttR.text ""
        if (jsTrim userText).length > 1 then
          let previousContext := parseHistoryV3 svc.parse req.history
          match spreadJson previousContext with
          | Except.error m => (errorResponseV m, [Call.stt audioFile])
          | Except.ok prevList =>
            let payload : PayloadV3 :=
              { system_instruction := { parts := [ { text := SYSTEM_PROMPT_V } ] },
                contents := prevList ++ [currentTurnJson userText] }
            let genR := svc.gen payload
            let aiText :=
              if genR.ok = false then FALLBACK_GEN_FAIL
              else jsOr genR.candidateText FALLBACK_NO_SPEECH
            let ttsB := ttsBodyOf aiText
            let ttsR := svc.tts ttsB
            let calls := [Call.stt audioFile, Call.gen payload, Call.tts ttsB]
            if ttsR.ok = false then
              (errorResponseV "ElevenLabs TTS Failed", calls)
            else
              ({ status := 200,
                 headers := successHeadersV aiText userText,
                 body := Body.audio ttsR.audio }, calls)
        else
          let aiText := FALLBACK_NO_SPEECH
          let ttsB := ttsBodyOf aiText
          let ttsR := svc.tts ttsB
          let calls := [Call.stt audioFile, Call.tts ttsB]
          if ttsR.ok = false then
            (errorResponseV "ElevenLabs TTS Failed", calls)
          else
            ({ status := 200,
               headers := successHeadersV aiText userText,
               body := Body.audio ttsR.audio }, calls)

/-- The default (no-match) branch of the dynamic CORS helper of the first
file of `src/unnamed/part_001`: allow-origin falls back to the first
allow-listed origin, or a localhost default when that entry is empty. -/
def defaultCorsDyn (allowedOrigins : List String) : List (String × String) :=
  [("Access-Control-Allow-Origin", jsOr allowedOrigins.head? "http://localhost:5173"),
   ("Access-Control-Allow-Methods", "POST, OPTIONS"),
   ("Access-Control-Allow-Headers", "Content-Type"),
   ("Access-Control-Max-Age", "86400")]

/-- The dynamic CORS helper `getCorsHeaders(request, env)` of the first
file of `src/unnamed/part_001` (lines 167-188): splits ALLOWED_ORIGINS on
commas; echoes the request Origin with an extended allowance when it is a
non-empty member of the list, and returns the default policy otherwise. -/
def getCorsHeadersDyn (request : Request) (env : Env) : List (String × String) :=
  let allowedOrigins := jsSplitComma (jsOr env.ALLOWED_ORIGINS "")
  match request.origin with
  | some origin =>
    if origin ≠ "" ∧ origin ∈ allowedOrigins then
      [("Access-Control-Allow-Origin", origin),
       ("Access-Control-Allow-Methods", "GET, POST, OPTIONS"),
       ("Access-Control-Allow-Headers", "Content-Type, x-api-key"),
       ("Access-Control-Max-Age", "86400")]
    else defaultCorsDyn allowedOrigins
  | none => defaultCorsDyn allowedOrigins

/-- The persona text of `src/index.ts` (template literal, lines 70-91). -/
def SYSTEM_PROMPT_MAIN : String :=
  "\n        You are Marcus Chen, an inmate in a medium-security correctional facility.\n        \n        **YOUR SITUATION:**\n        * Stressed. Sister arrested 3 days ago. Commissary frozen. Can't call home.\n        * Sitting in Day Room. NOT violent, but frustrated and skeptical.\n        \n        **YOUR OBJECTIVE:**\n        1. Respond naturally (keep it spoken, casual, under 2 sentences).\n        2. Assign a \"Compliance Score\" (0-100) to the user (Correctional Officer).\n           - 0-30: Hostile/Dismissive.\n           - 31-70: Neutral/By the book.\n           - 71-100: Empathetic/Validating.\n\n        **OUTPUT FORMAT:**\n        Return pure JSON:\n        \x7b\n          \"text\": \"Your spoken response.\",\n          \"compliance\": 50,\n          \"reasoning\": \"Why you gave this score.\"\n        \x7d\n      "

/-- The static CORS headers of `src/index.ts` (lines 12-19). -/
def getCorsHeadersMain : List (String × String) :=
  [("Access-Control-Allow-Origin", "*"),
   ("Access-Control-Allow-Methods", "POST, OPTIONS"),
   ("Access-Control-Allow-Headers", "Content-Type, X-Ai-Text, X-User-Text, X-Compliance-Score"),
   ("Access-Control-Expose-Headers", "X-Ai-Text, X-User-Text, X-Compliance-Score")]

/-- One part of a `src/index.ts` content entry; `text` is an Option Json
because history entries forward `msg.content` unchecked and the reply
text forwarded to synthesis may be undefined. -/
structure PartM where
  text : Option Json
  deriving DecidableEq, Repr

/-- One content entry of the `src/index.ts` generation payload. -/
structure ContentM where
  role : String
  parts : List PartM
  deriving DecidableEq, Repr

/-- The generationConfig block of the `src/index.ts` payload. -/
structure GenerationConfig where
  response_mime_type : String
  deriving DecidableEq, Repr

/-- The generation payload of `src/index.ts`. -/
structure PayloadM where
  contents : List ContentM
  generationConfig : GenerationConfig
  deriving DecidableEq, Repr

/-- The role remapping of `src/index.ts` line 97: strictly equal to the
string "assistant" maps to "model", anything else to "user". -/
def roleMapped (role : Option Json) : String :=
  match role with
  | some (Json.str s) => if s = "assistant" then "model" else "user"
  | _ => "user"

/-- One history entry mapped into the generation vocabulary
(`src/index.ts` lines 96-99); property access on a null entry throws. -/
def mapHistMsg (msg : Json) : Except String ContentM := do
  let role ← jsGetField msg "role"
  let content ← jsGetField msg "content"
  Except.ok { role := roleMapped role, parts := [ { text := content } ] }

/-- history.map over the parsed history value: a TypeError unless the
value is an array. -/
def mapHistory (history : Json) : Except String (List ContentM) :=
  match history with
  | Json.arr xs => xs.toList.mapM mapHistMsg
  | _ => Except.error "history.map is not a function"

/-- The `src/index.ts` history parsing (lines 62-68): start from the
empty array, replace it by JSON.parse of the form field when that field
is present, non-empty and parses; a parse failure is caught and ignored. -/
def parseHistoryMain (parse : String → Except String Json) (historyRaw : Option String) : Json :=
  match historyRaw with
  | none => Json.arr JsonList.nil
  | some s =>
    if s = "" then Json.arr JsonList.nil
    else
      match parse s with
      | Except.ok j => j
      | Except.error _ => Json.arr JsonList.nil

/-- The `src/index.ts` generation payload (lines 93-105): persona prompt
as the oldest user turn, then the role-remapped history, then the current
transcript as the newest user turn, with the JSON response mime type
forced. -/
def geminiPayload (history : Json) (userText : String) : Except String PayloadM := do
  let mapped ← mapHistory history
  Except.ok
    { contents :=
        { role := "user", parts := [ { text := some (Json.str SYSTEM_PROMPT_MAIN) } ] }
        :: mapped
        ++ [ { role := "user", parts := [ { text := some (Json.str userText) } ] } ],
      generationConfig := { response_mime_type := "application/json" } }

/-- Speech-to-text response as `src/index.ts` reads it: ok flag, the
statusText used in the failure message, and the `text` field (the code
casts the body to a record with a string text field). -/
structure SttRespMain where
  ok : Bool
  statusText : String
  text : String
  deriving DecidableEq, Repr

/-- Generation response as `src/index.ts` reads it: the body is parsed
unconditionally (the ok flag is never consulted) and only the
`candidates[0].content.parts[0].text` optional chain is used. -/
structure GenRespMain where
  candidateText : Option String
  deriving DecidableEq, Repr

/-- The collaborators of the `src/index.ts` revision; `parse` is the
platform JSON.parse (error = the SyntaxError message). -/
structure ServicesMain where
  stt : AudioFile → SttRespMain
  gen : PayloadM → GenRespMain
  tts : TtsBody → TtsResp
  parse : String → Except String Json

/-- The 500 error response of `src/index.ts` (lines 150-153): CORS
headers plus a JSON content type, body = the thrown message under
"error". -/
def errorResponseMain (m : String) : Response :=
  { status := 500,
    headers := getCorsHeadersMain ++ [("Content-Type", "application/json")],
    body := Body.json (Json.obj (JsonObj.cons "error" (Json.str m) JsonObj.nil)) }

/-- brainData.compliance.toString() (`src/index.ts` line 144): a
TypeError when the field is absent or null, the JS number/value
stringification otherwise. -/
def complianceString (brainData : Json) : Except String String := do
  let comp ← jsGetField brainData "compliance"
  match comp with
  | none => Except.error "Cannot read properties of undefined (reading toString)"
  | some Json.null => Except.error "Cannot read properties of null (reading toString)"
  | some v => Except.ok (jsToString v)

/-- The success-response headers of `src/index.ts` (lines 140-144). -/
def successHeadersMain (textField : Option Json) (userText comp : String) :
    List (String × String) :=
  setHeader
    (setHeader
      (setHeader
        (setHeader getCorsHeadersMain "Content-Type" "audio/mpeg")
        "X-Ai-Text" (jsStringCoerce textField))
      "X-User-Text" userText)
    "X-Compliance-Score" comp

/-- The fetch handler of `src/index.ts` (lines 28-155): method gate,
audio presence check, speech-to-text (failure message embeds the upstream
statusText), history parse (malformed history silently discarded),
generation payload with role-remapped history, generation call (HTTP
status never checked; an empty optional-chain result throws), structured
JSON parse of the raw model output (a parse failure throws), synthesis on
the parsed text field (fatal on failure), compliance stringification
(throws when the field is missing), success response with the three
metadata headers.  Returns the response with the ordered call list. -/
def fetchMain (env : Env) (req : Request) (svc : ServicesMain) :
    Response × List (Call PayloadM) :=
  if req.method = "OPTIONS" then
    ({ status := 200, headers := getCorsHeadersMain, body := Body.empty }, [])
  else if req.method ≠ "POST" then
    ({ status := 405, headers := getCorsHeadersMain, body := Body.text "Method not allowed" }, [])
  else
    match req.audio with
    | none => (errorResponseMain "No audio file provided", [])
    | some (FormValue.str _) => (errorResponseMain "No audio file provided", [])
    | some (FormValue.file audioFile) =>
      let sttR := svc.stt audioFile
      if sttR.ok = false then
        (errorResponseMain ("ElevenLabs STT Failed: " ++ sttR.statusText), [Call.stt audioFile])
      else
        let userText := sttR.text
        let history := parseHistoryMain svc.parse req.history
        match geminiPayload history userText with
        | Except.error m => (errorResponseMain m, [Call.stt audioFile])
        | Except.ok payload =>
          let genR := svc.gen payload
          let callsAfterGen := [Call.stt audioFile, Call.gen payload]
          match genR.candidateText with
          | none => (errorResponseMain "Gemini returned empty response", callsAfterGen)
          | some rawJSON =>
            if rawJSON = "" then
              (errorResponseMain "Gemini returned empty response", callsAfterGen)
            else
              match svc.parse rawJSON with
              | Except.error m => (errorResponseMain m, callsAfterGen)
              | Except.ok brainData =>
                match jsGetField brainData "text" with
                | Except.error m => (errorResponseMain m, callsAfterGen)
                | Except.ok textField =>
                  let ttsB : TtsBody :=
                    { text := textField,
                      model_id := "eleven_turbo_v2",
                      voice_settings := { stability := 0.5, similarity_boost := 0.7 } }
                  let ttsR := svc.tts ttsB
                  let calls := callsAfterGen ++ [Call.tts ttsB]
                  if ttsR.ok = false then
                    (errorResponseMain "ElevenLabs TTS Failed", calls)
                  else
                    match complianceString brainData with
                    | Except.error m => (errorResponseMain m, calls)
                    | Except.ok comp =>
                      ({ status := 200,
                         headers := successHeadersMain textField userText comp,
                         body := Body.audio ttsR.audio }, calls)

/-- A well-formed prior-turn entry as the frontend submits it:
a role and a content string. -/
structure HistEntry where
  role : String
  content : String
  deriving DecidableEq, Repr

/-- The JSON object a history entry parses to. -/
def encodeHistEntry (e : HistEntry) : Json :=
  Json.obj
    (JsonObj.cons "role" (Json.str e.role)
      (JsonObj.cons "content" (Json.str e.content) JsonObj.nil))

/-- What `src/index.ts` line 96-99 turns one history entry into. -/
def histContent (e : HistEntry) : ContentM :=
  { role := if e.role = "assistant" then "model" else "user",
    parts := [ { text := some (Json.str e.content) } ] }

/-- A fixture environment. -/
def envX : Env :=
  { ELEVENLABS_API_KEY := "elv-key", GEMINI_API_KEY := "gem-key",
    VOICE_ID := "voice-1", ALLOWED_ORIGINS := none }

/-- A fixture environment with a two-entry origin allow-list. -/
def envList : Env :=
  { envX with ALLOWED_ORIGINS := some "https://app.example,https://b.example" }

/-- A fixture audio clip above the minimum-size threshold. -/
def audioX : AudioFile := { name := "audio.webm", size := 2048, data := [1, 2, 3] }

/-- A fixture audio clip below the minimum-size threshold. -/
def audioSmall : AudioFile := { name := "audio.webm", size := 50, data := [1] }

/-- A fixture POST request with a valid audio clip and no history. -/
def reqX : Request :=
  { method := "POST", origin := none, audio := some (FormValue.file audioX), history := none }

/-- A fixture POST request with no audio form field. -/
def reqNoAudio : Request :=
  { method := "POST", origin := none, audio := none, history := none }

/-- A fixture POST request whose audio clip is below the threshold. -/
def reqSmall : Request := { reqX with audio := some (FormValue.file audioSmall) }

/-- A fixture GET request. -/
def reqGet : Request := { reqX with method := "GET" }

/-- A fixture POST request with a history form field that is not JSON. -/
def reqBadHist : Request := { reqX with history := some "not json" }

/-- Fixture collaborators for the part_001 revision whose transcription
returns an empty transcript (detected silence). -/
def svcSilence : ServicesV2b :=
  { stt := fun _ => { ok := true, text := some "", bodyText := "" },
    gen := fun _ => { ok := true, candidateText := some "yo", bodyText := "" },
    tts := fun _ => { ok := true, audio := [9, 9] } }

/-- Fixture collaborators for the part_001 revision whose transcription
call fails with a detailed upstream error body. -/
def svcSttFail : ServicesV2b :=
  { stt := fun _ => { ok := false, text := none, bodyText := "upstream secret detail" },
    gen := fun _ => { ok := true, candidateText := some "yo", bodyText := "" },
    tts := fun _ => { ok := true, audio := [9, 9] } }

/-- Fixture collaborators for the part_002 revision whose generation call
returns a non-success HTTP response. -/
def svcGenFail : ServicesV3 :=
  { stt := fun _ => { ok := true, text := some "hello there", bodyText := "" },
    gen := fun _ => { ok := false, candidateText := none, bodyText := "quota exceeded" },
    tts := fun _ => { ok := true, audio := [1] },
    parse := fun _ => Except.error "nope" }

/-- The structured model output fixture with all three fields. -/
def brainJson : Json :=
  Json.obj (JsonObj.cons "text" (Json.str "Nah man, still locked. You know anything?")
    (JsonObj.cons "compliance" (Json.num 87)
      (JsonObj.cons "reasoning" (Json.str "ok") JsonObj.nil)))

/-- The structured model output fixture that lacks the text field. -/
def brainNoText : Json :=
  Json.obj (JsonObj.cons "compliance" (Json.num 50)
    (JsonObj.cons "reasoning" (Json.str "r") JsonObj.nil))

/-- Fixture collaborators for the src/index.ts revision where every stage
succeeds and the model returns well-formed structured JSON. -/
def svcMainOk : ServicesMain :=
  { stt := fun _ => { ok := true, statusText := "OK", text := "is my account unfrozen" },
    gen := fun _ => { candidateText := some "RAW" },
    tts := fun _ => { ok := true, audio := [1, 2, 3] },
    parse := fun s => if s = "RAW" then Except.ok brainJson else Except.error "SyntaxError" }

/-- A fixture two-entry history. -/
def histX : List HistEntry := [ { role := "user", content := "hi" },
                                { role := "assistant", content := "yo" } ]

/-- Fixture collaborators for the src/index.ts revision where the model
returns structured JSON lacking the text field. -/
def svcNoText : ServicesMain :=
  { stt := fun _ => { ok := true, statusText := "OK", text := "is my account unfrozen" },
    gen := fun _ => { candidateText := some "RAW" },
    tts := fun _ => { ok := true, audio := [1, 2, 3] },
    parse := fun s => if s = "RAW" then Except.ok brainNoText else Except.error "SyntaxError" }

/-- C1 (counterexample): on a valid audio input transcribed as the empty
string, the part_001 revision never calls the generation service and
replies with its fixed fallback — but that fallback is the string
"I couldn't hear you, Officer. Say again?", not the string
"I couldn't hear you, say again?" the claim names, so the claim as
stated is false at this input. -/
theorem C1_counterexample :
    hasGenCall (fetchV2b envX reqX svcSilence).2 = false ∧
    getHeader (fetchV2b envX reqX svcSilence).1.headers "X-Ai-Text" =
      some "I couldn't hear you, Officer. Say again?" ∧
    ("I couldn't hear you, Officer. Say again?" : String) ≠
      "I couldn't hear you, say again?" := by
  refine ⟨rfl, rfl, ?_⟩
  decide

/-- C1 (amended): for every valid audio input (file present, size at or
above the threshold) whose transcription succeeds with a transcript whose
trimmed length is at most 1, the generation service is never called and
the reply text equals the fixed fallback string
"I couldn't hear you, Officer. Say again?". -/
theorem C1_silence_skips_generation (env : Env) (o hist : Option String) (a : AudioFile)
    (svc : ServicesV2b) (t : Option String) (b : String) (bytes : List Nat)
    (hsize : ¬ a.size < 100)
    (hstt : svc.stt a = { ok := true, text := t, bodyText := b })
    (hlen : ¬ (jsTrim (jsOr t "")).length > 1)
    (htts : svc.tts (ttsBodyOf FALLBACK_NO_SPEECH) = { ok := true, audio := bytes }) :
    hasGenCall (fetchV2b env { method := "POST", origin := o, audio := some (FormValue.file a), history := hist } svc).2 = false ∧
    getHeader (fetchV2b env { method := "POST", origin := o, audio := some (FormValue.file a), history := hist } svc).1.headers "X-Ai-Text" = some FALLBACK_NO_SPEECH ∧
    (fetchV2b env { method := "POST", origin := o, audio := some (FormValue.file a), history := hist } svc).1.status = 200 := by
  simp [fetchV2b, hstt, hsize, hlen, htts, hasGenCall, getHeader, successHeadersV, setHeader,
    getCorsHeadersV]

/-- C1 (witness): the amended theorem applied to the empty-transcript
fixture. -/
theorem C1_witness :
    hasGenCall (fetchV2b envX reqX svcSilence).2 = false ∧
    getHeader (fetchV2b envX reqX svcSilence).1.headers "X-Ai-Text" = some FALLBACK_NO_SPEECH ∧
    (fetchV2b envX reqX svcSilence).1.status = 200 :=
  C1_silence_skips_generation envX none none audioX svcSilence (some "") "" [9, 9]
    (by decide) rfl (by decide) rfl

/-- C2: in the part_002 revision, on valid audio with a transcript of
trimmed length above 1 and a well-formed (or absent) history, if the
generation service returns a non-success HTTP response the turn does not
abort: the reply text becomes the fixed apologetic fallback, synthesis
still runs on that fallback text, and the turn succeeds with status 200
and the synthesized audio payload. -/
theorem C2_generation_failure_degrades (env : Env) (o hist : Option String) (a : AudioFile)
    (svc : ServicesV3) (t : Option String) (b : String) (bytes : List Nat) (prev : List Json)
    (hstt : svc.stt a = { ok := true, text := t, bodyText := b })
    (hlen : (jsTrim (jsOr t "")).length > 1)
    (hspread : spreadJson (parseHistoryV3 svc.parse hist) = Except.ok prev)
    (hgen : ∀ p, (svc.gen p).ok = false)
    (htts : svc.tts (ttsBodyOf FALLBACK_GEN_FAIL) = { ok := true, audio := bytes }) :
    (fetchV3 env { method := "POST", origin := o, audio := some (FormValue.file a), history := hist } svc).1.status = 200 ∧
    getHeader (fetchV3 env { method := "POST", origin := o, audio := some (FormValue.file a), history := hist } svc).1.headers "X-Ai-Text" = some FALLBACK_GEN_FAIL ∧
    (fetchV3 env { method := "POST", origin := o, audio := some (FormValue.file a), history := hist } svc).1.body = Body.audio bytes ∧
    Call.tts (ttsBodyOf FALLBACK_GEN_FAIL) ∈ (fetchV3 env { method := "POST", origin := o, audio := some (FormValue.file a), history := hist } svc).2 := by
  simp [fetchV3, hstt, hlen, hspread, hgen, htts, getHeader, successHeadersV, setHeader,
    getCorsHeadersV]

/-- C2 (witness): the theorem applied to the generation-failure
fixture. -/
theorem C2_witness :
    (fetchV3 envX reqX svcGenFail).1.status = 200 ∧
    getHeader (fetchV3 envX reqX svcGenFail).1.headers "X-Ai-Text" = some FALLBACK_GEN_FAIL ∧
    (fetchV3 envX reqX svcGenFail).1.body = Body.audio [1] ∧
    Call.tts (ttsBodyOf FALLBACK_GEN_FAIL) ∈ (fetchV3 envX reqX svcGenFail).2 :=
  C2_generation_failure_degrades envX none none audioX svcGenFail (some "hello there") "" [1] []
    rfl (by decide) rfl (fun _ => rfl) rfl

/-- C4: in the revision with the minimum-size guard (part_001, second
file), a POST request with no audio file, or with an audio file smaller
than 100 bytes, fails with the corresponding invalid-input error (a 500
JSON error object) and makes no outbound call to any service. -/
theorem C4_invalid_input_no_calls (env : Env) (req : Request) (svc : ServicesV2b)
    (hm : req.method = "POST") :
    ((req.audio = none ∨ ∃ s, req.audio = some (FormValue.str s)) →
        fetchV2b env req svc = (errorResponseV "No audio file provided", [])) ∧
    (∀ a, req.audio = some (FormValue.file a) → a.size < 100 →
        fetchV2b env req svc = (errorResponseV "Audio file too short.", [])) := by
  constructor
  · rintro (h | ⟨s, h⟩) <;> simp [fetchV2b, hm, h]
  · intro a ha hsize
    simp [fetchV2b, hm, ha, hsize]

/-- C4 (witness): the theorem applied to the missing-audio and
too-small-audio fixtures. -/
theorem C4_witness :
    fetchV2b envX reqNoAudio svcSilence = (errorResponseV "No audio file provided", []) ∧
    fetchV2b envX reqSmall svcSilence = (errorResponseV "Audio file too short.", []) :=
  ⟨(C4_invalid_input_no_calls envX reqNoAudio svcSilence rfl).1 (Or.inl rfl),
   (C4_invalid_input_no_calls envX reqSmall svcSilence rfl).2 audioSmall rfl (by decide)⟩

theorem JsonList.toList_ofList (l : List Json) : (JsonList.ofList l).toList = l := by
  induction l with
  | nil => rfl
  | cons x xs ih => simp [JsonList.ofList, JsonList.toList, ih]

theorem mapHistMsg_encode (e : HistEntry) :
    mapHistMsg (encodeHistEntry e) = Except.ok (histContent e) := rfl

theorem mapM_loop_encode (hs : List HistEntry) (acc : List ContentM) :
    List.mapM.loop mapHistMsg (hs.map encodeHistEntry) acc =
      Except.ok (acc.reverse ++ hs.map histContent) := by
  induction hs generalizing acc with
  | nil =>
      simp [List.mapM.loop]
      rfl
  | cons e rest ih =>
      simp [List.mapM.loop, mapHistMsg_encode, ih, Except.bind]
      rfl

theorem mapM_encode (hs : List HistEntry) :
    (hs.map encodeHistEntry).mapM mapHistMsg = Except.ok (hs.map histContent) := by
  have h := mapM_loop_encode hs []
  simp only [List.reverse_nil, List.nil_append] at h
  exact h

theorem mapHistory_encode (hs : List HistEntry) :
    mapHistory (Json.arr (JsonList.ofList (hs.map encodeHistEntry))) =
      Except.ok (hs.map histContent) := by
  show (JsonList.ofList (hs.map encodeHistEntry)).toList.mapM mapHistMsg = _
  rw [JsonList.toList_ofList, mapM_encode]

/-- C3: for a request carrying N prior history entries, the generation
payload built by src/index.ts contains exactly those N entries, with the
role "assistant" mapped to "model" and every other role (so in particular
"user") mapped to "user", in their original order at positions 1..N, all
preceding the current transcript which is the last content entry (a user
turn), with the persona prompt as the first entry. -/
theorem C3_history_order (hs : List HistEntry) (userText : String) :
    ∃ payload,
      geminiPayload (Json.arr (JsonList.ofList (hs.map encodeHistEntry))) userText =
        Except.ok payload ∧
      payload.contents.length = hs.length + 2 ∧
      (∀ i, (hi : i < hs.length) →
        payload.contents[i + 1]? =
          some { role := if hs[i].role = "assistant" then "model" else "user",
                 parts := [ { text := some (Json.str hs[i].content) } ] }) ∧
      payload.contents.getLast? =
        some { role := "user", parts := [ { text := some (Json.str userText) } ] } ∧
      payload.contents.head? =
        some { role := "user", parts := [ { text := some (Json.str SYSTEM_PROMPT_MAIN) } ] } := by
  have hpay : geminiPayload (Json.arr (JsonList.ofList (hs.map encodeHistEntry))) userText =
      Except.ok
        { contents :=
            { role := "user", parts := [ { text := some (Json.str SYSTEM_PROMPT_MAIN) } ] }
              :: hs.map histContent
              ++ [ { role := "user", parts := [ { text := some (Json.str userText) } ] } ],
          generationConfig := { response_mime_type := "application/json" } } := by
    simp [geminiPayload, mapHistory_encode]
    rfl
  refine ⟨_, hpay, ?_, ?_, ?_, ?_⟩
  · simp
  · intro i hi
    simp [List.getElem?_cons_succ, List.getElem?_append, hi, List.getElem?_eq_getElem,
      histContent]
  · show (({ role := "user", parts := [ { text := some (Json.str SYSTEM_PROMPT_MAIN) } ] }
          :: (hs.map histContent
          ++ [ { role := "user", parts := [ { text := some (Json.str userText) } ] } ]) : List ContentM)).getLast? = _
    rw [← List.cons_append, List.getLast?_concat]
  · rfl

/-- C3 (witness): the theorem applied to a two-entry history. -/
theorem C3_witness :
    ∃ payload,
      geminiPayload (Json.arr (JsonList.ofList (histX.map encodeHistEntry))) "ok" =
        Except.ok payload ∧
      payload.contents.length = histX.length + 2 ∧
      (∀ i, (hi : i < histX.length) →
        payload.contents[i + 1]? =
          some { role := if histX[i].role = "assistant" then "model" else "user",
                 parts := [ { text := some (Json.str histX[i].content) } ] }) ∧
      payload.contents.getLast? =
        some { role := "user", parts := [ { text := some (Json.str "ok") } ] } ∧
      payload.contents.head? =
        some { role := "user", parts := [ { text := some (Json.str SYSTEM_PROMPT_MAIN) } ] } :=
  C3_history_order histX "ok"

theorem fetchV2b_shape (env : Env) (req : Request) (svc : ServicesV2b) :
    (req.method = "OPTIONS" ∧ (fetchV2b env req svc).1 =
        { status := 200, headers := getCorsHeadersV, body := Body.empty })
  ∨ ((fetchV2b env req svc).1.status = 405 ∧
        (fetchV2b env req svc).1.body = Body.text "Method not allowed")
  ∨ (∃ m, (fetchV2b env req svc).1 = errorResponseV m)
  ∨ (∃ ai u bytes, (fetchV2b env req svc).1 =
        { status := 200, headers := successHeadersV ai u, body := Body.audio bytes }) := by
  simp only [fetchV2b]
  repeat' split
  all_goals first
    | exact Or.inl ⟨by assumption, rfl⟩
    | exact Or.inr (Or.inl ⟨rfl, rfl⟩)
    | exact Or.inr (Or.inr (Or.inl ⟨_, rfl⟩))
    | exact Or.inr (Or.inr (Or.inr ⟨_, _, _, rfl⟩))

theorem fetchV3_shape (env : Env) (req : Request) (svc : ServicesV3) :
    (req.method = "OPTIONS" ∧ (fetchV3 env req svc).1 =
        { status := 200, headers := getCorsHeadersV, body := Body.empty })
  ∨ ((fetchV3 env req svc).1.status = 405 ∧
        (fetchV3 env req svc).1.body = Body.text "Method not allowed")
  ∨ (∃ m, (fetchV3 env req svc).1 = errorResponseV m)
  ∨ (∃ ai u bytes, (fetchV3 env req svc).1 =
        { status := 200, headers := successHeadersV ai u, body := Body.audio bytes }) := by
  simp only [fetchV3]
  repeat' split
  all_goals first
    | exact Or.inl ⟨by assumption, rfl⟩
    | exact Or.inr (Or.inl ⟨rfl, rfl⟩)
    | exact Or.inr (Or.inr (Or.inl ⟨_, rfl⟩))
    | exact Or.inr (Or.inr (Or.inr ⟨_, _, _, rfl⟩))

theorem fetchMain_shape (env : Env) (req : Request) (svc : ServicesMain) :
    (req.method = "OPTIONS" ∧ (fetchMain env req svc).1 =
        { status := 200, headers := getCorsHeadersMain, body := Body.empty })
  ∨ ((fetchMain env req svc).1.status = 405 ∧
        (fetchMain env req svc).1.body = Body.text "Method not allowed")
  ∨ (∃ m, (fetchMain env req svc).1 = errorResponseMain m)
  ∨ (∃ tf u c bytes, (fetchMain env req svc).1 =
        { status := 200, headers := successHeadersMain tf u c, body := Body.audio bytes }) := by
  simp only [fetchMain]
  repeat' split
  all_goals first
    | exact Or.inl ⟨by assumption, rfl⟩
    | exact Or.inr (Or.inl ⟨rfl, rfl⟩)
    | exact Or.inr (Or.inr (Or.inl ⟨_, rfl⟩))
    | exact Or.inr (Or.inr (Or.inr ⟨_, _, _, _, rfl⟩))

theorem successHeadersV_lookup (ai u : String) :
    getHeader (successHeadersV ai u) "X-User-Text" = some u ∧
    getHeader (successHeadersV ai u) "X-Ai-Text" = some ai ∧
    getHeader (successHeadersV ai u) "X-Compliance-Score" = none := ⟨rfl, rfl, rfl⟩

theorem successHeadersMain_lookup (tf : Option Json) (u c : String) :
    getHeader (successHeadersMain tf u c) "X-User-Text" = some u ∧
    getHeader (successHeadersMain tf u c) "X-Ai-Text" = some (jsStringCoerce tf) ∧
    getHeader (successHeadersMain tf u c) "X-Compliance-Score" = some c := ⟨rfl, rfl, rfl⟩

/-- C5 (counterexample): with the structured contract in use, the model
output parses to a JSON object that lacks the `text` field, yet the turn
does not fail: it completes with status 200 (the reply text is the
undefined coercion).  This refutes the claim that a missing `text` field
makes the turn fail. -/
theorem C5_counterexample :
    svcNoText.parse "RAW" = Except.ok brainNoText ∧
    jsGetField brainNoText "text" = Except.ok none ∧
    (fetchMain envX reqX svcNoText).1.status = 200 ∧
    getHeader (fetchMain envX reqX svcNoText).1.headers "X-Ai-Text" = some "undefined" :=
  ⟨rfl, rfl, rfl, rfl⟩

/-- C5 (amended): when the structured-JSON contract is used, the raw
model output is parsed as JSON and the turn fails (500 error carrying the
parse message) when parsing fails; a parsed JSON lacking the `text` field
does not by itself fail the turn — synthesis proceeds with an undefined
reply text and the turn succeeds whenever the compliance field is present
and synthesis succeeds. -/
theorem C5_structured_output (env : Env) (o hist : Option String) (a : AudioFile)
    (svc : ServicesMain) (st u raw : String) (payload : PayloadM)
    (hstt : svc.stt a = { ok := true, statusText := st, text := u })
    (hpayload : geminiPayload (parseHistoryMain svc.parse hist) u = Except.ok payload)
    (hgen : svc.gen payload = { candidateText := some raw })
    (hraw : raw ≠ "") :
    (∀ m, svc.parse raw = Except.error m →
      (fetchMain env { method := "POST", origin := o, audio := some (FormValue.file a), history := hist } svc).1 = errorResponseMain m) ∧
    (∀ bd cs bytes, svc.parse raw = Except.ok bd →
      jsGetField bd "text" = Except.ok none →
      complianceString bd = Except.ok cs →
      svc.tts { text := none, model_id := "eleven_turbo_v2",
                voice_settings := { stability := 0.5, similarity_boost := 0.7 } } =
        { ok := true, audio := bytes } →
      (fetchMain env { method := "POST", origin := o, audio := some (FormValue.file a), history := hist } svc).1.status = 200 ∧
      getHeader (fetchMain env { method := "POST", origin := o, audio := some (FormValue.file a), history := hist } svc).1.headers "X-Ai-Text" = some "undefined") := by
  constructor
  · intro m hparse
    simp [fetchMain, hstt, hpayload, hgen, hraw, hparse]
  · intro bd cs bytes hparse htext hcomp htts
    simp [fetchMain, hstt, hpayload, hgen, hraw, hparse, htext, hcomp, htts,
      successHeadersMain_lookup, jsStringCoerce]

/-- C5 (witness): the amended theorem applied to the missing-text
fixture. -/
theorem C5_witness :
    (fetchMain envX reqX svcNoText).1.status = 200 ∧
    getHeader (fetchMain envX reqX svcNoText).1.headers "X-Ai-Text" = some "undefined" :=
  (C5_structured_output envX none none audioX svcNoText "OK" "is my account unfrozen" "RAW"
      { contents :=
          [ { role := "user", parts := [ { text := some (Json.str SYSTEM_PROMPT_MAIN) } ] },
            { role := "user", parts := [ { text := some (Json.str "is my account unfrozen") } ] } ],
        generationConfig := { response_mime_type := "application/json" } }
      rfl rfl rfl (by decide)).2 brainNoText "50" [1, 2, 3] rfl rfl rfl rfl

/-- C6 (counterexample): with allow-list
"https://app.example,https://b.example", a request from the unlisted
origin "https://evil.example" receives an allow-origin header naming
"https://app.example" — the value of a listed origin — refuting the
claim that an unlisted origin never receives a listed origin's value. -/
theorem C6_counterexample :
    getHeader (getCorsHeadersDyn { reqX with origin := some "https://evil.example" } envList)
        "Access-Control-Allow-Origin" = some "https://app.example" ∧
    "https://app.example" ∈ jsSplitComma (jsOr envList.ALLOWED_ORIGINS "") ∧
    "https://evil.example" ∉ jsSplitComma (jsOr envList.ALLOWED_ORIGINS "") := by
  refine ⟨rfl, by decide, by decide⟩

/-- C6 (amended): a request from a non-empty origin on the allow-list
receives exactly that origin echoed with the extended method/header
allowance; a request from any other origin receives the default policy,
whose allow-origin is the first allow-list entry (or
"http://localhost:5173" when that entry is empty) with the restricted
method list. -/
theorem C6_cors_policy (env : Env) (req : Request) (o : String)
    (ho : req.origin = some o) :
    (o ≠ "" ∧ o ∈ jsSplitComma (jsOr env.ALLOWED_ORIGINS "") →
      getCorsHeadersDyn req env =
        [("Access-Control-Allow-Origin", o),
         ("Access-Control-Allow-Methods", "GET, POST, OPTIONS"),
         ("Access-Control-Allow-Headers", "Content-Type, x-api-key"),
         ("Access-Control-Max-Age", "86400")]) ∧
    (¬ (o ≠ "" ∧ o ∈ jsSplitComma (jsOr env.ALLOWED_ORIGINS "")) →
      getCorsHeadersDyn req env = defaultCorsDyn (jsSplitComma (jsOr env.ALLOWED_ORIGINS "")) ∧
      getHeader (getCorsHeadersDyn req env) "Access-Control-Allow-Origin" =
        some (jsOr (jsSplitComma (jsOr env.ALLOWED_ORIGINS "")).head? "http://localhost:5173") ∧
      getHeader (getCorsHeadersDyn req env) "Access-Control-Allow-Methods" =
        some "POST, OPTIONS") := by
  constructor
  · intro h
    simp [getCorsHeadersDyn, ho, h]
  · intro h
    simp [getCorsHeadersDyn, ho, h, defaultCorsDyn, getHeader]

/-- C6 (witness): the amended theorem applied to a listed origin. -/
theorem C6_witness :
    getCorsHeadersDyn { reqX with origin := some "https://b.example" } envList =
      [("Access-Control-Allow-Origin", "https://b.example"),
       ("Access-Control-Allow-Methods", "GET, POST, OPTIONS"),
       ("Access-Control-Allow-Headers", "Content-Type, x-api-key"),
       ("Access-Control-Max-Age", "86400")] :=
  (C6_cors_policy envList { reqX with origin := some "https://b.example" } "https://b.example"
      rfl).1 (by decide)

/-- C7 (counterexample): the part_001 revision's transcription-failure
message embeds the upstream response body verbatim in the caller-visible
error, and the method-not-allowed rejection is a plain-text (non-JSON)
failure response — refuting the claim that every failure is a terse JSON
object free of upstream bodies. -/
theorem C7_counterexample :
    (fetchV2b envX reqX svcSttFail).1 =
      errorResponseV ("ElevenLabs STT Failed: " ++ "upstream secret detail") ∧
    (fetchV2b envX reqGet svcSilence).1.status = 405 ∧
    (fetchV2b envX reqGet svcSilence).1.body = Body.text "Method not allowed" :=
  ⟨rfl, rfl, rfl⟩

/-- C7 (amended): every failure response produced by the turn pipeline
(every response with status 500) is a JSON object with a single "error"
field holding the thrown message; stack traces are never attached (the
body is exactly that one-field object). -/
theorem C7_failure_shape (env : Env) (req : Request) (svc : ServicesV2b)
    (h : (fetchV2b env req svc).1.status = 500) :
    ∃ m, (fetchV2b env req svc).1 =
      { status := 500, headers := getCorsHeadersV,
        body := Body.json (Json.obj (JsonObj.cons "error" (Json.str m) JsonObj.nil)) } := by
  rcases fetchV2b_shape env req svc with ⟨_, hr⟩ | ⟨hr, _⟩ | ⟨m, hr⟩ | ⟨ai, u, bytes, hr⟩
  · rw [hr] at h
    simp at h
  · rw [hr] at h
    simp at h
  · exact ⟨m, hr⟩
  · rw [hr] at h
    simp at h

/-- C7 (witness): the amended theorem applied to the missing-audio
fixture. -/
theorem C7_witness :
    ∃ m, (fetchV2b envX reqNoAudio svcSilence).1 =
      { status := 500, headers := getCorsHeadersV,
        body := Body.json (Json.obj (JsonObj.cons "error" (Json.str m) JsonObj.nil)) } :=
  C7_failure_shape envX reqNoAudio svcSilence rfl

/-- C8: every successful (status 200) POST turn carries both the
recognized-text and reply-text metadata headers; the compliance-score
header is present exactly when the structured-JSON contract is in use —
absent in the plain-text part_002 revision, present in the structured
src/index.ts revision. -/
theorem C8_metadata_invariant :
    (∀ (env : Env) (req : Request) (svc : ServicesV3), req.method = "POST" →
      (fetchV3 env req svc).1.status = 200 →
        (∃ u, getHeader (fetchV3 env req svc).1.headers "X-User-Text" = some u) ∧
        (∃ ai, getHeader (fetchV3 env req svc).1.headers "X-Ai-Text" = some ai) ∧
        getHeader (fetchV3 env req svc).1.headers "X-Compliance-Score" = none) ∧
    (∀ (env : Env) (req : Request) (svc : ServicesMain), req.method = "POST" →
      (fetchMain env req svc).1.status = 200 →
        (∃ u, getHeader (fetchMain env req svc).1.headers "X-User-Text" = some u) ∧
        (∃ ai, getHeader (fetchMain env req svc).1.headers "X-Ai-Text" = some ai) ∧
        (∃ c, getHeader (fetchMain env req svc).1.headers "X-Compliance-Score" = some c)) := by
  constructor
  · intro env req svc hm hst
    rcases fetchV3_shape env req svc with ⟨hopt, _⟩ | ⟨hr, _⟩ | ⟨m, hr⟩ | ⟨ai, u, bytes, hr⟩
    · rw [hm] at hopt
      simp at hopt
    · rw [hr] at hst
      simp at hst
    · rw [hr] at hst
      simp [errorResponseV] at hst
    · rw [hr]
      exact ⟨⟨u, (successHeadersV_lookup ai u).1⟩, ⟨ai, (successHeadersV_lookup ai u).2.1⟩,
        (successHeadersV_lookup ai u).2.2⟩
  · intro env req svc hm hst
    rcases fetchMain_shape env req svc with ⟨hopt, _⟩ | ⟨hr, _⟩ | ⟨m, hr⟩ | ⟨tf, u, c, bytes, hr⟩
    · rw [hm] at hopt
      simp at hopt
    · rw [hr] at hst
      simp at hst
    · rw [hr] at hst
      simp [errorResponseMain] at hst
    · rw [hr]
      exact ⟨⟨u, (successHeadersMain_lookup tf u c).1⟩,
        ⟨jsStringCoerce tf, (successHeadersMain_lookup tf u c).2.1⟩,
        ⟨c, (successHeadersMain_lookup tf u c).2.2⟩⟩

/-- C8 (witness): both halves of the invariant applied to concrete
successful runs of the two revisions. -/
theorem C8_witness :
    ((∃ u, getHeader (fetchV3 envX reqX svcGenFail).1.headers "X-User-Text" = some u) ∧
     (∃ ai, getHeader (fetchV3 envX reqX svcGenFail).1.headers "X-Ai-Text" = some ai) ∧
     getHeader (fetchV3 envX reqX svcGenFail).1.headers "X-Compliance-Score" = none) ∧
    ((∃ u, getHeader (fetchMain envX reqX svcMainOk).1.headers "X-User-Text" = some u) ∧
     (∃ ai, getHeader (fetchMain envX reqX svcMainOk).1.headers "X-Ai-Text" = some ai) ∧
     (∃ c, getHeader (fetchMain envX reqX svcMainOk).1.headers "X-Compliance-Score" = some c)) :=
  ⟨C8_metadata_invariant.1 envX reqX svcGenFail rfl rfl,
   C8_metadata_invariant.2 envX reqX svcMainOk rfl rfl⟩

/-- C9: the handler is deterministic — the embedded handler is a pure
function of the request and the collaborator oracles, so two runs on the
same audio with empty history and the same (deterministic) collaborators
produce identical recognized-text and reply-text metadata headers. -/
theorem C9_deterministic (env : Env) (svc : ServicesV3) (a : AudioFile) :
    getHeader (fetchV3 env { method := "POST", origin := none, audio := some (FormValue.file a), history := none } svc).1.headers "X-User-Text" =
      getHeader (fetchV3 env { method := "POST", origin := none, audio := some (FormValue.file a), history := none } svc).1.headers "X-User-Text" ∧
    getHeader (fetchV3 env { method := "POST", origin := none, audio := some (FormValue.file a), history := none } svc).1.headers "X-Ai-Text" =
      getHeader (fetchV3 env { method := "POST", origin := none, audio := some (FormValue.file a), history := none } svc).1.headers "X-Ai-Text" :=
  ⟨rfl, rfl⟩

theorem parseHistoryMain_malformed (parse : String → Except String Json) (s msg : String)
    (hs : s ≠ "") (hp : parse s = Except.error msg) :
    parseHistoryMain parse (some s) = parseHistoryMain parse none := by
  simp [parseHistoryMain, hs, hp]

/-- C10: in src/index.ts, a history form field that is present but fails
to parse as JSON is silently discarded: the handler behaves exactly as if
no history had been supplied (same response, same outbound calls). -/
theorem C10_malformed_history_ignored (env : Env) (svc : ServicesMain)
    (mth : String) (o : Option String) (au : Option FormValue) (s msg : String)
    (hne : s ≠ "") (hparse : svc.parse s = Except.error msg) :
    fetchMain env { method := mth, origin := o, audio := au, history := some s } svc =
    fetchMain env { method := mth, origin := o, audio := au, history := none } svc := by
  simp only [fetchMain, parseHistoryMain_malformed svc.parse s msg hne hparse]

/-- C10 (witness): the theorem applied to the non-JSON history
fixture. -/
theorem C10_witness :
    fetchMain envX reqBadHist svcMainOk =
    fetchMain envX { reqBadHist with history := none } svcMainOk :=
  C10_malformed_history_ignored envX svcMainOk "POST" none (some (FormValue.file audioX))
    "not json" "SyntaxError" (by decide) rfl
